import Mathlib

/-!
Verification development for the synapse RPC client (client core and
cluster pool). Pure Go functions are translated into Lean functions;
the stateful write/read/close paths become explicit state passing over
a `ClientState`. Machine integers are `Nat` with explicit `% 2^64`
where overflow matters. Parts of the repository that are external
collaborators or live outside the provided sources (frame codec
constants, the msgpack codec, the pending map) are modelled from the
spec, each marked in its doc comment.
-/

set_option autoImplicit false

namespace Synapse

/-- Errors surfaced by the client, mirroring the package-level error
values (`ErrClosed`, `ErrTimeout`, `ErrTooLarge`, `ErrNoClients`,
`errNoCmd`, `errUnknownCmd`) plus marshal and dial errors carried as
data. -/
inductive Err where
  | closed
  | timeout
  | tooLarge
  | noClients
  | marshalErr (s : String)
  | noCmd
  | unknownCmd
  | dialErr (n : Nat)
  deriving DecidableEq, Repr

/-- Modelled from the spec: the body length field of a frame is 16
bits and values above 65,535 must be rejected (`maxMessageSize` is
declared outside the provided sources). -/
def maxMessageSize : Nat := 65535

/-- Modelled from the spec: wire lead is seq:u64 be, kind:u8,
length:u16 be; `leadSize` is its byte count. -/
def leadSize : Nat := 11

/-- 2^64, the modulus of the Go `uint64` sequence counter. -/
def u64 : Nat := 2 ^ 64

/-- Modelled from the spec: frame kinds REQ, RES, CMD plus an invalid
kind standing for every other byte value. -/
inductive FType where
  | fINVAL
  | fREQ
  | fRES
  | fCMD
  deriving DecidableEq, Repr

/-- Wire code of a frame kind. -/
def FType.code : FType → Nat
  | .fINVAL => 0
  | .fREQ => 1
  | .fRES => 2
  | .fCMD => 3

/-- Big-endian encoding of `n` into `w` bytes (most significant
first). -/
def beBytes : Nat → Nat → List Nat
  | 0, _ => []
  | w + 1, n => beBytes w (n / 256) ++ [n % 256]

/-- Modelled from the spec: `putFrame` encodes the 11-byte lead
`seq:u64 be || kind:u8 || length:u16 be`. -/
def putFrame (seq : Nat) (k : FType) (sz : Nat) : List Nat :=
  beBytes 8 seq ++ [k.code] ++ beBytes 2 sz

/-- Modelled from the spec: the opaque codec's `AppendUint32` emits a
5-byte msgpack uint32 (tag byte then 4 big-endian bytes); used for the
method word at the front of a request body. -/
def appendUint32Bytes (m : Nat) : List Nat := 206 :: beBytes 4 m

/-- Modelled from the spec: the empty-map sentinel appended when the
request body is nil (`AppendMapHeader 0` is the single byte 0x80). -/
def emptyMapHeader : List Nat := [128]

/-- One in-flight call record (the Go `waiter`), reduced to the fields
the client core manipulates: assigned sequence number, the reusable
buffer `in`, the reap mark, the terminal error and whether `done` has
been signalled. -/
structure Waiter where
  seq : Nat
  buf : List Nat
  reap : Bool
  err : Option Err
  woken : Bool
  deriving DecidableEq, Repr

/-- State of one `Client`: open/closed flag, sequence counter `csn`,
outstanding-work counter `wg`, the pending map (seq to waiter), the
writing queue, the bytes written to the transport, and the three
close flags (`done` channel, `writing` channel, connection). -/
structure ClientState where
  stateOpen : Bool
  csn : Nat
  wg : Int
  pending : List (Nat × Waiter)
  writing : List Waiter
  transport : List Nat
  doneChClosed : Bool
  writingChClosed : Bool
  connClosed : Bool
  deriving DecidableEq, Repr

/-- A fresh open client as built by `NewClient`. -/
def initClient : ClientState :=
  { stateOpen := true, csn := 0, wg := 0, pending := [], writing := [],
    transport := [], doneChClosed := false, writingChClosed := false,
    connClosed := false }

/-- Modelled from the spec: the pending map's atomic lookup-and-delete
`remove(seq)`; returns the removed waiter (if any) and the remaining
map. -/
def wmapRemove : List (Nat × Waiter) → Nat → Option Waiter × List (Nat × Waiter)
  | [], _ => (none, [])
  | (s, w) :: rest, seq =>
    if s = seq then (some w, rest)
    else
      let r := wmapRemove rest seq
      (r.1, (s, w) :: r.2)

/-- The Go `(*waiter).writebody`: record the sequence number, clear
the reap mark, insert into the pending map and enqueue on the writing
channel. -/
def writebody (st : ClientState) (w : Waiter) (seq : Nat) : ClientState :=
  let w' := { w with seq := seq, reap := false }
  { st with pending := st.pending ++ [(seq, w')],
            writing := st.writing ++ [w'] }

/-- Outcome of the marshaler argument `in` of `write`: `none` is a nil
body, otherwise the bytes it appends or its error. -/
def MarshalArg : Type := Option (Except String (List Nat))

/-- The Go `(*waiter).write`, line by line: increment `wg`, check the
state (return `ErrClosed` if closed), take the next sequence number,
reserve the lead, append the method word and the marshalled body (or
the empty-map sentinel), reject bodies over `maxMessageSize` with
`ErrTooLarge`, frame as REQ and hand off to `writebody`. -/
def clientWrite (st0 : ClientState) (method : Nat) (inArg : MarshalArg) :
    Option Err × ClientState :=
  let st := { st0 with wg := st0.wg + 1 }
  if st.stateOpen = false then (some .closed, st)
  else
    let sn := (st.csn + 1) % u64
    let st := { st with csn := sn }
    let methodBytes := appendUint32Bytes method
    match inArg with
    | some (Except.error e) => (some (.marshalErr e), st)
    | some (Except.ok bs) =>
      let body := methodBytes ++ bs
      if body.length > maxMessageSize then (some .tooLarge, st)
      else
        let buf := putFrame sn .fREQ body.length ++ body
        (none, writebody st { seq := sn, buf := buf, reap := false,
                              err := none, woken := false } sn)
    | none =>
      let body := methodBytes ++ emptyMapHeader
      if body.length > maxMessageSize then (some .tooLarge, st)
      else
        let buf := putFrame sn .fREQ body.length ++ body
        (none, writebody st { seq := sn, buf := buf, reap := false,
                              err := none, woken := false } sn)

/-- The Go `(*waiter).writeCommand`: increment `wg`, check the state,
take the next sequence number, reject command bodies (`len(msg)+1`)
over `maxMessageSize` with `ErrTooLarge`, frame `cmd || msg` as CMD
and hand off to `writebody`. -/
def clientWriteCommand (st0 : ClientState) (cmd : Nat) (msg : List Nat) :
    Option Err × ClientState :=
  let st := { st0 with wg := st0.wg + 1 }
  if st.stateOpen = false then (some .closed, st)
  else
    let sn := (st.csn + 1) % u64
    let st := { st with csn := sn }
    let cmdlen := msg.length + 1
    if cmdlen > maxMessageSize then (some .tooLarge, st)
    else
      let buf := putFrame sn .fCMD cmdlen ++ (cmd :: msg)
      (none, writebody st { seq := sn, buf := buf, reap := false,
                            err := none, woken := false } sn)

/-- One step of the Go `writeLoop`: dequeue the head of the writing
channel and write its buffer to the transport (buffering and flushing
coalesce bytes but preserve content and order). -/
def writeLoopStep (st : ClientState) : ClientState :=
  match st.writing with
  | [] => st
  | wt :: rest => { st with writing := rest, transport := st.transport ++ wt.buf }

/-- Modelled from the spec: command codes; `cmdInvalid` is 0 and
`maxcommand` bounds the static command directory (ping and
list-links). -/
def cmdInvalid : Nat := 0

/-- Modelled from the spec: exclusive upper bound of valid command
codes in the static command directory. -/
def maxcommand : Nat := 3

/-- The Go `(*waiter).call` as invoked by `Client.Call`, with the
concurrent wait outcome supplied as an oracle: `waitErr` is the
terminal error found in `w.err` on wakeup (set by the scavenger or by
`closeError`; `none` when the reader delivered a response) and
`readRes` is the outcome of decoding the response body. Returns the
call result, the post state, and whether `Call` pushed the waiter back
onto the free list. -/
def clientCallStep (st : ClientState) (method : Nat) (inArg : MarshalArg)
    (waitErr : Option Err) (readRes : Option Err) :
    Option Err × ClientState × Bool :=
  match clientWrite st method inArg with
  | (some e, st1) => (some e, { st1 with wg := st1.wg - 1 }, true)
  | (none, st1) =>
    let st2 := { st1 with wg := st1.wg - 1 }
    match waitErr with
    | some e => (some e, st2, true)
    | none => (readRes, st2, true)

/-- The Go `(*Client).sendCommand`, with the wait outcome and the
response body supplied as oracles: pop a waiter, `writeCommand`, on
error decrement `wg` and return without pushing; otherwise wait,
decrement `wg`, return `w.err` without pushing if set; otherwise check
the response command byte (`errNoCmd` on empty body, `errUnknownCmd`
on an invalid code), pushing the waiter in those paths and on
success. -/
def sendCommandStep (st : ClientState) (cmd : Nat) (msg : List Nat)
    (waitErr : Option Err) (respBody : List Nat) :
    Option Err × ClientState × Bool :=
  match clientWriteCommand st cmd msg with
  | (some e, st1) => (some e, { st1 with wg := st1.wg - 1 }, false)
  | (none, st1) =>
    let st2 := { st1 with wg := st1.wg - 1 }
    match waitErr with
    | some e => (some e, st2, false)
    | none =>
      if respBody.length = 0 then (some .noCmd, st2, true)
      else
        let ret := respBody.headD 0
        if ret = cmdInvalid ∨ maxcommand ≤ ret then (some .unknownCmd, st2, true)
        else (none, st2, true)

/-- Observable actions performed by `Close`, in order: wait on the
outstanding-work group, close the `done` channel (stops the
scavenger), close the `writing` channel (stops the writer), close the
connection. -/
inductive CloseAction where
  | waitWG
  | closeDone
  | closeWriting
  | closeConn
  deriving DecidableEq, Repr

/-- The Go `(*Client).Close`: a compare-and-swap on the state decides
the single winner; a loser returns `ErrClosed` at once with no
effect. The winner waits for `wg`, closes `done` and `writing`, then
closes the connection; the pending map is not touched. The action list
records the winner's effects in program order. -/
def clientClose (st : ClientState) : Option Err × ClientState × List CloseAction :=
  if st.stateOpen = false then (some .closed, st, [])
  else
    (none,
     { st with stateOpen := false, doneChClosed := true,
               writingChClosed := true, connClosed := true },
     [.waitWG, .closeDone, .closeWriting, .closeConn])

/-- Result of one iteration of the client reader. -/
inductive ReadStepResult where
  | skippedBadFrame
  | skippedNoWaiter
  | delivered (seq : Nat)
  deriving DecidableEq, Repr

/-- One iteration of the Go `(*Client).readLoop` after decoding the
lead into `(seq, frame, body)`: frames that are neither CMD nor RES
are skipped (and logged); otherwise `pending.remove(seq)` either finds
no waiter (body skipped) or yields the waiter, whose buffer is filled
with the body, whose error is cleared, and which is signalled. The
third component is the waiter signalled by this step, if any. -/
def readLoopStep (pending : List (Nat × Waiter)) (seq : Nat) (frame : FType)
    (body : List Nat) :
    ReadStepResult × List (Nat × Waiter) × Option Waiter :=
  if frame ≠ .fCMD ∧ frame ≠ .fRES then (.skippedBadFrame, pending, none)
  else
    match wmapRemove pending seq with
    | (none, p) => (.skippedNoWaiter, p, none)
    | (some w, p) =>
      (.delivered seq, p, some { w with buf := body, err := none, woken := true })

/-- Modelled from the spec: the opaque structured-payload codec. A
buffer is a list of typed msgpack items; typed reads succeed only on
an item of the right type, mirroring the codec's typed decoding. -/
inductive MsgItem where
  | int (n : Int)
  | str (s : String)
  | other (tag : Nat)
  deriving DecidableEq, Repr

/-- Modelled from the spec: the codec's `ReadIntBytes`, returning the
integer and the remainder of the buffer, or failing when the buffer
does not start with an integer. -/
def readIntBytes : List MsgItem → Except Unit (Int × List MsgItem)
  | .int n :: rest => Except.ok (n, rest)
  | _ => Except.error ()

/-- Modelled from the spec: the codec's `ReadStringBytes`, returning
the string and the remainder of the buffer, or failing when the buffer
does not start with a string. -/
def readStringBytes : List MsgItem → Except Unit (String × List MsgItem)
  | .str s :: rest => Except.ok (s, rest)
  | _ => Except.error ()

/-- Modelled from the spec: the OK status code (non-OK responses carry
an explanation string). Its concrete value is immaterial; only
equality with it is tested. -/
def statusOK : Int := 1

/-- The structured error returned for a non-OK response status. -/
structure RespError where
  code : Int
  expl : String
  deriving DecidableEq, Repr

/-- Result of decoding a response body in `(*waiter).read`. -/
inductive ReadResult where
  | ok
  | decodeErr
  | respErr (e : RespError)
  | unmarshalErr
  deriving DecidableEq, Repr

/-- The Go `(*waiter).read`, line by line: read the status integer
from `w.in` (its remainder is `body`); on a non-OK status, read the
explanation string FROM `w.in` (as the source does), falling back to
the string of a question mark in angle brackets when that read fails,
and return the structured response error; on OK with a supplied `out`,
unmarshal `body` into it and return that result. `outPresent` says
whether `out` is non-nil, `unmarshalOk` is the opaque unmarshal
outcome on a given buffer; the second component reports whether `out`
was dereferenced. -/
def waiterRead (outPresent : Bool) (unmarshalOk : List MsgItem → Bool)
    (win : List MsgItem) : ReadResult × Bool :=
  match readIntBytes win with
  | Except.error _ => (.decodeErr, false)
  | Except.ok (code, body) =>
    if code ≠ statusOK then
      let str :=
        match readStringBytes win with
        | Except.ok (s, _) => s
        | Except.error _ => "<?>"
      (.respErr { code := code, expl := str }, false)
    else if outPresent then
      (if unmarshalOk body then .ok else .unmarshalErr, true)
    else (.ok, false)

/-- Modelled from the spec: the response-body decode contract as the
spec words it, for comparison with `waiterRead`: on a non-OK status
the explanation string is unmarshaled from the payload FOLLOWING the
status (that is, from `body`). -/
def waiterReadSpec (outPresent : Bool) (unmarshalOk : List MsgItem → Bool)
    (win : List MsgItem) : ReadResult × Bool :=
  match readIntBytes win with
  | Except.error _ => (.decodeErr, false)
  | Except.ok (code, body) =>
    if code ≠ statusOK then
      let str :=
        match readStringBytes body with
        | Except.ok (s, _) => s
        | Except.error _ => "<?>"
      (.respErr { code := code, expl := str }, false)
    else if outPresent then
      (if unmarshalOk body then .ok else .unmarshalErr, true)
    else (.ok, false)

/-- The scan loop at the end of `(*ClusterClient).dialAll`: walk the
per-address error slice tracking whether any dial succeeded (`any`)
and the index of the first error (`first`, `none` for Go's -1);
the running index `i` is threaded through. -/
def dialAllLoop : List (Option Err) → Bool → Option Nat → Nat → Bool × Option Nat
  | [], any, first, _ => (any, first)
  | e :: rest, any, first, i =>
    if e = none ∧ any = false then dialAllLoop rest true first (i + 1)
    else if first = none ∧ e ≠ none then dialAllLoop rest any (some i) (i + 1)
    else dialAllLoop rest any first (i + 1)

/-- The verdict of `(*ClusterClient).dialAll` over the per-address
outcomes (`none` = that address was dialed and its handshake
succeeded; `some e` = net.Dial or NewClient failed with `e`): return
nil when any address succeeded, otherwise the first error. -/
def dialAllResult (errs : List (Option Err)) : Option Err :=
  match dialAllLoop errs false none 0 with
  | (true, _) => none
  | (false, some i) => errs.getD i none
  | (false, none) => none

/-- The Go `(*ClusterClient).dialAll` on an empty client list: fails
with `ErrNoClients` when there are no remotes, otherwise dials every
remote in parallel and applies the verdict scan. -/
def dialAll (outcomes : List (Option Err)) : Option Err :=
  if outcomes.length = 0 then some .noClients
  else dialAllResult outcomes

/-- The Go `DialCluster`: rejects an empty address list with
`ErrNoClients`, then runs `dialAll` over the per-address dial
outcomes. -/
def dialCluster (outcomes : List (Option Err)) : Option Err :=
  if outcomes.length < 1 then some .noClients
  else dialAll outcomes

/-- The cluster state relevant to `Status`: the stored remote address
strings and the resolved remote addresses of the live clients. -/
structure ClusterState where
  remotes : List String
  clients : List String
  deriving DecidableEq, Repr

/-- The Go `(*ClusterClient).dial` with `exists=false` (the `Add`
path), on a successful connection whose resolved remote address is
`resolved`: append the resolved address to `remotes` unless already
present, and append the new client. -/
def clusterDial (st : ClusterState) (resolved : String) : ClusterState :=
  { remotes := if resolved ∈ st.remotes then st.remotes
               else st.remotes ++ [resolved],
    clients := st.clients ++ [resolved] }

/-- The Go `(*ClusterClient).Status` snapshot: `Connected` is the list
of the live clients' resolved remote addresses, `Disconnected` the
stored remotes that equal no connected address. -/
def clusterStatus (st : ClusterState) : List String × List String :=
  let connected := st.clients
  (connected, st.remotes.filter (fun r => decide (r ∉ connected)))

/-- Go's `time.Duration` counts nanoseconds; one nanosecond. -/
def nanosecond : Int := 1

/-- Go's `time.Millisecond`: 1,000,000 nanoseconds. -/
def millisecond : Int := 1000000

/-- The literal `1000` passed as the `timeout` argument of `NewClient`
by `(*ClusterClient).dialAll` and `(*ClusterClient).dial`, converted
to `time.Duration` (nanoseconds) by Go's typing of untyped constants. -/
def clusterNewClientTimeout : Int := 1000 * nanosecond

/-- The Go `(*Client).timeoutLoop` ticks with period exactly the
duration `d` it was given (`time.Tick(d)`); `d` is the `timeout`
argument of `NewClient`. -/
def timeoutLoopPeriod (d : Int) : Int := d

/-- A client after losing the `Close` race: state is `clientClosed`. -/
def closedClient : ClientState := { initClient with stateOpen := false }

/-- Value of the sequence counter of a fresh client after `n`
sequence-assigning invocations (each does `AddUint64(&csn, 1)`,
that is, increments modulo 2^64). -/
def csnIter : Nat → Nat
  | 0 => 0
  | n + 1 => (csnIter n + 1) % u64

/-- C1 scenario: a response body carrying a non-OK status followed by
a properly encoded explanation string. -/
def c1Body : List MsgItem := [MsgItem.int 3, MsgItem.str "nope"]

/-- C8 scenario: the cluster state after `DialCluster` established one
client at resolved address a, followed by `Add` of the same address
(the dial path with `exists=false` appends a second client but no new
remote). -/
def c8State : ClusterState :=
  clusterDial { remotes := ["a"], clients := ["a"] } "a"

/-! Helper lemmas about the embedded operations. -/

/-- Every path of `clientWrite` leaves `wg` incremented by exactly
one: the increment precedes the state check and no path of `write`
itself decrements. -/
theorem clientWrite_wg (st : ClientState) (m : Nat) (a : MarshalArg) :
    (clientWrite st m a).2.wg = st.wg + 1 := by
  rcases a with _ | e
  · simp only [clientWrite]
    split
    · rfl
    · split <;> simp [writebody]
  · rcases e with e | bs
    · simp only [clientWrite]
      split <;> rfl
    · simp only [clientWrite]
      split
      · rfl
      · split <;> simp [writebody]

/-- Every path of `clientWriteCommand` leaves `wg` incremented by
exactly one. -/
theorem clientWriteCommand_wg (st : ClientState) (c : Nat) (msg : List Nat) :
    (clientWriteCommand st c msg).2.wg = st.wg + 1 := by
  simp only [clientWriteCommand]
  split
  · rfl
  · split <;> simp [writebody]

/-- The sequence counter of a fresh client after `n` invocations is
`n % 2^64`. -/
theorem csnIter_eq_mod (n : Nat) : csnIter n = n % u64 := by
  induction n with
  | zero => rfl
  | succ k ih => simp [csnIter, ih, Nat.add_mod_right, Nat.add_mod]

/-! Claim theorems. -/

/-- C1: the response-body decode contract for `Call` requires the
explanation of a non-OK response to be unmarshaled from the payload
following the status; the source instead re-reads from the start of
the buffer (`msgp.ReadStringBytes(w.in)` rather than `body`), so the
typed string read always fails on the leading status integer and the
explanation surfaced is the fallback placeholder, never the payload
string. At the concrete body `int 3 || str "nope"`, the code yields
explanation `"<?>"` while the spec-worded decode yields `"nope"`; the
`out` argument is not dereferenced in either. -/
theorem c1_read_explanation_diverges :
    waiterRead false (fun _ => true) c1Body =
      (ReadResult.respErr { code := 3, expl := "<?>" }, false) ∧
    waiterReadSpec false (fun _ => true) c1Body =
      (ReadResult.respErr { code := 3, expl := "nope" }, false) ∧
    ("<?>" : String) ≠ "nope" := by
  refine ⟨by decide, by decide, by decide⟩

/-- C9: every cluster-created client passes the untyped literal 1000
as the `time.Duration` timeout of `NewClient`, which Go types as 1000
nanoseconds; the timeout-scavenger period of such a client is
therefore 1000 nanoseconds and not 1000 milliseconds. -/
theorem c9_cluster_timeout_is_nanoseconds :
    timeoutLoopPeriod clusterNewClientTimeout = 1000 * nanosecond ∧
    timeoutLoopPeriod clusterNewClientTimeout ≠ 1000 * millisecond := by
  refine ⟨rfl, by decide⟩

/-- C8 counterexample: after dialing a one-address cluster and then
`Add`-ing the same resolved address, there are two live clients at
address a but a single stored remote; `Status` reports two connected
and zero disconnected entries, so |Connected| + |Disconnected| = 2 ≠ 1
= |remotes|, refuting the claimed cardinality invariant. -/
theorem c8_status_cardinality_fails :
    (clusterStatus c8State).1.length + (clusterStatus c8State).2.length ≠
      c8State.remotes.length := by
  decide

/-- C2: when the encoded body of a call exceeds 65,535 bytes
(`olen > maxMessageSize` in `write`) or the command body does
(`len(msg)+1 > maxMessageSize` in `writeCommand`), the operation
returns `ErrTooLarge` synchronously before framing: the pending map,
the writing channel and the transport are all left exactly as they
were. -/
theorem c2_tooLarge_before_framing (st : ClientState) (method cmd : Nat)
    (bs msg : List Nat)
    (hopen : st.stateOpen = true)
    (hbig : maxMessageSize < (appendUint32Bytes method ++ bs).length)
    (hbigc : maxMessageSize < msg.length + 1) :
    (clientWrite st method (some (Except.ok bs))).1 = some Err.tooLarge ∧
    (clientWrite st method (some (Except.ok bs))).2.pending = st.pending ∧
    (clientWrite st method (some (Except.ok bs))).2.writing = st.writing ∧
    (clientWrite st method (some (Except.ok bs))).2.transport = st.transport ∧
    (clientWriteCommand st cmd msg).1 = some Err.tooLarge ∧
    (clientWriteCommand st cmd msg).2.pending = st.pending ∧
    (clientWriteCommand st cmd msg).2.writing = st.writing ∧
    (clientWriteCommand st cmd msg).2.transport = st.transport := by
  have hbig' : maxMessageSize < (appendUint32Bytes method).length + bs.length := by
    simpa [List.length_append] using hbig
  simp [clientWrite, clientWriteCommand, hopen, hbig', hbigc]

/-- C4: `Close` is idempotent and allowed exactly once. The winner of
the compare-and-swap waits on the outstanding-work group first (it
does not cancel pending calls: the pending map is untouched), then
closes the `done` channel (stopping the scavenger) and the `writing`
channel (stopping the writer), and closes the transport last; a call
on an already-closed client returns `ErrClosed` and changes nothing,
and any call following a first `Close` returns `ErrClosed`. -/
theorem c4_close_exactly_once (st : ClientState) :
    (st.stateOpen = true →
      (clientClose st).1 = none ∧
      (clientClose st).2.2 = [CloseAction.waitWG, CloseAction.closeDone,
                              CloseAction.closeWriting, CloseAction.closeConn] ∧
      (clientClose st).2.1.stateOpen = false ∧
      (clientClose st).2.1.doneChClosed = true ∧
      (clientClose st).2.1.writingChClosed = true ∧
      (clientClose st).2.1.connClosed = true ∧
      (clientClose st).2.1.pending = st.pending) ∧
    (st.stateOpen = false → clientClose st = (some Err.closed, st, [])) ∧
    (clientClose (clientClose st).2.1).1 = some Err.closed ∧
    (clientClose (clientClose st).2.1).2.1 = (clientClose st).2.1 := by
  cases h : st.stateOpen <;> simp [clientClose, h]

/-- C6: the reader routes RES and CMD frames identically (the two
steps are equal as functions of the pending map and body); any other
frame kind is skipped with no waiter signalled and the pending map
untouched; an in-kind frame whose sequence number matches no pending
waiter is skipped with no waiter signalled; a matching waiter is
removed, its buffer filled with the body, its error cleared, and it is
signalled. -/
theorem c6_reader_routing (p : List (Nat × Waiter)) (seq : Nat) (body : List Nat)
    (frame : FType) (w : Waiter) :
    readLoopStep p seq FType.fRES body = readLoopStep p seq FType.fCMD body ∧
    ((frame = FType.fREQ ∨ frame = FType.fINVAL) →
      readLoopStep p seq frame body = (ReadStepResult.skippedBadFrame, p, none)) ∧
    ((wmapRemove p seq).1 = none →
      (readLoopStep p seq FType.fRES body).1 = ReadStepResult.skippedNoWaiter ∧
      (readLoopStep p seq FType.fRES body).2.2 = none) ∧
    ((wmapRemove p seq).1 = some w →
      readLoopStep p seq FType.fRES body =
        (ReadStepResult.delivered seq, (wmapRemove p seq).2,
          some { w with buf := body, err := none, woken := true })) := by
  refine ⟨by simp [readLoopStep], ?_, ?_, ?_⟩
  · rintro (rfl | rfl) <;> simp [readLoopStep]
  · intro hnone
    rcases hrm : wmapRemove p seq with ⟨r, p2⟩
    rw [hrm] at hnone
    simp at hnone
    subst hnone
    simp [readLoopStep, hrm]
  · intro hsome
    rcases hrm : wmapRemove p seq with ⟨r, p2⟩
    rw [hrm] at hsome
    simp at hsome
    subst hsome
    simp [readLoopStep, hrm]

/-- C3: the outstanding-work counter is incremented before the state
check, so a `write` or `writeCommand` that loses to `Close` still
returns `ErrClosed` with `wg` one above its entry value; and every
invocation of `Call` or `sendCommand` that returns an error before
enqueueing (state-check failure, marshal error, or too-large body)
decrements the counter again and so leaves `wg` net unchanged. -/
theorem c3_wg_net_unchanged (st : ClientState) (m cmd : Nat) (a : MarshalArg)
    (msg respBody : List Nat) (waitErr readRes : Option Err) :
    (st.stateOpen = false →
      (clientWrite st m a).1 = some Err.closed ∧
      (clientWrite st m a).2.wg = st.wg + 1 ∧
      (clientWriteCommand st cmd msg).1 = some Err.closed ∧
      (clientWriteCommand st cmd msg).2.wg = st.wg + 1) ∧
    ((clientWrite st m a).1.isSome →
      (clientCallStep st m a waitErr readRes).1 = (clientWrite st m a).1 ∧
      (clientCallStep st m a waitErr readRes).2.1.wg = st.wg) ∧
    ((clientWriteCommand st cmd msg).1.isSome →
      (sendCommandStep st cmd msg waitErr respBody).1 =
        (clientWriteCommand st cmd msg).1 ∧
      (sendCommandStep st cmd msg waitErr respBody).2.1.wg = st.wg) := by
  refine ⟨?_, ?_, ?_⟩
  · intro hclosed
    refine ⟨?_, ?_, ?_, ?_⟩
    · rcases a with _ | e
      · simp [clientWrite, hclosed]
      · rcases e with e | bs <;> simp [clientWrite, hclosed]
    · exact clientWrite_wg st m a
    · simp [clientWriteCommand, hclosed]
    · exact clientWriteCommand_wg st cmd msg
  · intro hsome
    have hwg := clientWrite_wg st m a
    rcases hw : clientWrite st m a with ⟨r, st1⟩
    rw [hw] at hsome hwg
    rcases r with _ | e
    · simp at hsome
    · simp only at hwg
      constructor
      · simp [clientCallStep, hw]
      · simp only [clientCallStep, hw]
        omega
  · intro hsome
    have hwg := clientWriteCommand_wg st cmd msg
    rcases hw : clientWriteCommand st cmd msg with ⟨r, st1⟩
    rw [hw] at hsome hwg
    rcases r with _ | e
    · simp at hsome
    · simp only at hwg
      constructor
      · simp [sendCommandStep, hw]
      · simp only [sendCommandStep, hw]
        omega

/-- C5: each `write` or `writeCommand` invocation that passes the
state check advances the client's sequence counter to
`(csn + 1) % 2^64` and the successful write registers its waiter in
the pending map and writing queue under exactly that number; on a
fresh client the number handed to the i-th invocation is `csnIter i`,
and these are strictly increasing (hence pairwise distinct) for any
two invocation indices below 2^64. -/
theorem c5_sequence_numbers (st : ClientState) (m cmd : Nat) (a : MarshalArg)
    (msg : List Nat) (i j : Nat)
    (hopen : st.stateOpen = true) (hij : i < j) (hj : j < u64) :
    (clientWrite st m a).2.csn = (st.csn + 1) % u64 ∧
    (clientWriteCommand st cmd msg).2.csn = (st.csn + 1) % u64 ∧
    ((clientWrite st m a).1 = none →
      ∃ w, (clientWrite st m a).2.writing = st.writing ++ [w] ∧
        (clientWrite st m a).2.pending = st.pending ++ [(w.seq, w)] ∧
        w.seq = (st.csn + 1) % u64) ∧
    csnIter i < csnIter j := by
  refine ⟨?_, ?_, ?_, ?_⟩
  · rcases a with _ | e
    · simp only [clientWrite]
      split
      · simp [hopen] at *
      · split <;> simp [writebody]
    · rcases e with e | bs
      · simp only [clientWrite]
        split
        · simp [hopen] at *
        · rfl
      · simp only [clientWrite]
        split
        · simp [hopen] at *
        · split <;> simp [writebody]
  · simp only [clientWriteCommand]
    split
    · simp [hopen] at *
    · split <;> simp [writebody]
  · intro hok
    rcases a with _ | e
    · by_cases hsz : maxMessageSize < (appendUint32Bytes m).length + emptyMapHeader.length
      · exfalso
        have hx : (clientWrite st m none).1 = some Err.tooLarge := by
          simp [clientWrite, hopen, hsz]
        rw [hok] at hx
        simp at hx
      · refine ⟨{ seq := (st.csn + 1) % u64,
                  buf := putFrame ((st.csn + 1) % u64) FType.fREQ
                      (appendUint32Bytes m ++ emptyMapHeader).length ++
                      (appendUint32Bytes m ++ emptyMapHeader),
                  reap := false, err := none, woken := false }, ?_, ?_, rfl⟩ <;>
          simp [clientWrite, hopen, hsz, writebody]
    · rcases e with e | bs
      · exfalso
        have hx : (clientWrite st m (some (Except.error e))).1 =
            some (Err.marshalErr e) := by
          simp [clientWrite, hopen]
        rw [hok] at hx
        simp at hx
      · by_cases hsz : maxMessageSize < (appendUint32Bytes m).length + bs.length
        · exfalso
          have hx : (clientWrite st m (some (Except.ok bs))).1 =
              some Err.tooLarge := by
            simp [clientWrite, hopen, hsz]
          rw [hok] at hx
          simp at hx
        · refine ⟨{ seq := (st.csn + 1) % u64,
                    buf := putFrame ((st.csn + 1) % u64) FType.fREQ
                        (appendUint32Bytes m ++ bs).length ++
                        (appendUint32Bytes m ++ bs),
                    reap := false, err := none, woken := false }, ?_, ?_, rfl⟩ <;>
            simp [clientWrite, hopen, hsz, writebody]
  · rw [csnIter_eq_mod, csnIter_eq_mod,
        Nat.mod_eq_of_lt (lt_trans hij hj), Nat.mod_eq_of_lt hj]
    exact hij

/-- C10: `Call` pushes its waiter back to the free list on every path,
success or failure; `sendCommand` returns without pushing whenever
`writeCommand` fails and whenever the waiter wakes with a terminal
error (timeout or fatal close), so those failed commands never recycle
their waiter. -/
theorem c10_waiter_push_discipline (st : ClientState) (m cmd : Nat)
    (a : MarshalArg) (msg respBody : List Nat) (waitErr readRes : Option Err) :
    (clientCallStep st m a waitErr readRes).2.2 = true ∧
    ((clientWriteCommand st cmd msg).1.isSome →
      (sendCommandStep st cmd msg waitErr respBody).2.2 = false) ∧
    ((clientWriteCommand st cmd msg).1 = none → waitErr.isSome →
      (sendCommandStep st cmd msg waitErr respBody).2.2 = false) := by
  refine ⟨?_, ?_, ?_⟩
  · rcases hw : clientWrite st m a with ⟨r, st1⟩
    rcases r with _ | e
    · rcases waitErr with _ | e2 <;> simp [clientCallStep, hw]
    · simp [clientCallStep, hw]
  · intro hsome
    rcases hw : clientWriteCommand st cmd msg with ⟨r, st1⟩
    rw [hw] at hsome
    rcases r with _ | e
    · simp at hsome
    · simp [sendCommandStep, hw]
  · intro hok hwait
    rcases hw : clientWriteCommand st cmd msg with ⟨r, st1⟩
    rw [hw] at hok
    rcases r with _ | e
    · rcases waitErr with _ | e2
      · simp at hwait
      · simp [sendCommandStep, hw]
    · simp at hok

/-- The `any` flag computed by the dialAll scan loop is true exactly
when it started true or some outcome is a success. -/
theorem dialAllLoop_fst (errs : List (Option Err)) (any : Bool)
    (first : Option Nat) (i : Nat) :
    (dialAllLoop errs any first i).1 = (any || errs.any (fun e => e.isNone)) := by
  induction errs generalizing any first i with
  | nil => simp [dialAllLoop]
  | cons e rest ih => rcases e with _ | v <;> cases any <;> rcases first with _ | f <;>
      simp [dialAllLoop, ih]

/-- Once the scan loop has recorded a first-error index it never
changes it. -/
theorem dialAllLoop_snd_some (errs : List (Option Err)) (any : Bool) (j i : Nat) :
    (dialAllLoop errs any (some j) i).2 = some j := by
  induction errs generalizing any i with
  | nil => rfl
  | cons e rest ih => rcases e with _ | v <;> cases any <;> simp [dialAllLoop, ih]

/-- When the first outcome is an error, the scan loop records the
starting index as the first-error index. -/
theorem dialAllLoop_first_of_fail (e : Err) (rest : List (Option Err)) (i : Nat) :
    (dialAllLoop (some e :: rest) false none i).2 = some i := by
  simp [dialAllLoop, dialAllLoop_snd_some]

/-- C7: `DialCluster` with no addresses fails with `ErrNoClients`;
when at least one per-address dial (including its handshake) succeeds
the cluster dial succeeds; and only when every per-address dial fails
does it return an error, namely the first per-address error. -/
theorem c7_dialCluster_semantics (outcomes : List (Option Err)) :
    dialCluster [] = some Err.noClients ∧
    (none ∈ outcomes → dialCluster outcomes = none) ∧
    ((∀ e ∈ outcomes, e ≠ none) → outcomes ≠ [] →
      dialCluster outcomes = outcomes.headD none) := by
  refine ⟨rfl, ?_, ?_⟩
  · intro hmem
    have hne : outcomes ≠ [] := by rintro rfl; simp at hmem
    have hl0 : outcomes.length ≠ 0 := by
      simpa [List.length_eq_zero] using hne
    have hany : outcomes.any (fun e => e.isNone) = true := by
      rw [List.any_eq_true]
      exact ⟨none, hmem, rfl⟩
    have hfst := dialAllLoop_fst outcomes false none 0
    rcases hres : dialAllLoop outcomes false none 0 with ⟨b, f⟩
    rw [hres] at hfst
    simp only [Bool.false_or] at hfst
    rw [hany] at hfst
    subst hfst
    simp [dialCluster, dialAll, dialAllResult, hres, Nat.lt_one_iff, hl0]
  · intro hall hne
    rcases outcomes with _ | ⟨o, rest⟩
    · exact absurd rfl hne
    rcases o with _ | e
    · exact absurd rfl (hall none (List.mem_cons_self _ _))
    have hany : (some e :: rest).any (fun x => x.isNone) = false := by
      rw [List.any_eq_false]
      intro x hx
      rcases x with _ | y
      · exact absurd rfl (hall none hx)
      · simp
    have hfst := dialAllLoop_fst (some e :: rest) false none 0
    have hsnd := dialAllLoop_first_of_fail e rest 0
    rcases hres : dialAllLoop (some e :: rest) false none 0 with ⟨b, f⟩
    rw [hres] at hfst hsnd
    simp only [Bool.false_or] at hfst
    rw [hany] at hfst
    subst hfst
    simp only at hsnd
    subst hsnd
    simp [dialCluster, dialAll, dialAllResult, hres]

/-- C8 (amended): `Status` always reports `Connected` as exactly the
live clients' resolved addresses and `Disconnected` as the stored
remotes matching no connected address; and whenever the stored remotes
are pairwise distinct, the clients' resolved addresses are pairwise
distinct and each of them is a stored remote, the snapshot satisfies
|Connected| + |Disconnected| = |remotes|. -/
theorem c8_status_cardinality_amended (st : ClusterState)
    (hc : st.clients.Nodup) (hr : st.remotes.Nodup)
    (hsub : ∀ a ∈ st.clients, a ∈ st.remotes) :
    (clusterStatus st).1 = st.clients ∧
    (clusterStatus st).2 = st.remotes.filter (fun r => decide (r ∉ st.clients)) ∧
    (clusterStatus st).1.length + (clusterStatus st).2.length =
      st.remotes.length := by
  refine ⟨rfl, rfl, ?_⟩
  have hpart := List.length_eq_length_filter_add
    (l := st.remotes) (fun r => decide (r ∈ st.clients))
  have hperm : List.Perm (st.remotes.filter (fun r => decide (r ∈ st.clients)))
      st.clients := by
    apply List.perm_of_nodup_nodup_toFinset_eq (List.Nodup.filter _ hr) hc
    apply List.toFinset.ext
    intro x
    simp only [List.mem_filter, decide_eq_true_eq]
    constructor
    · rintro ⟨_, hx⟩; exact hx
    · intro hx; exact ⟨hsub x hx, hx⟩
  have hlen := hperm.length_eq
  have hneg : st.remotes.filter (fun r => decide (r ∉ st.clients)) =
      st.remotes.filter (fun r => !(decide (r ∈ st.clients))) := by
    simp [decide_not]
  simp only [clusterStatus]
  rw [hneg]
  omega

/-- The method word is always 5 bytes. -/
theorem appendUint32Bytes_length (m : Nat) : (appendUint32Bytes m).length = 5 := rfl

/-- Witness for C2: a 65,531-byte marshalled payload (encoded body
65,536 bytes) and a 65,535-byte command payload (body 65,536 bytes)
are both rejected with `ErrTooLarge` on a fresh open client. -/
theorem c2_witness :
    initClient.stateOpen = true ∧
    (clientWrite initClient 0 (some (Except.ok (List.replicate 65531 0)))).1 =
      some Err.tooLarge ∧
    (clientWriteCommand initClient 0 (List.replicate 65535 0)).1 =
      some Err.tooLarge := by
  have h := c2_tooLarge_before_framing initClient 0 0
    (List.replicate 65531 0) (List.replicate 65535 0) rfl
    (by rw [List.length_append, appendUint32Bytes_length, List.length_replicate]
        norm_num [maxMessageSize])
    (by rw [List.length_replicate]; norm_num [maxMessageSize])
  exact ⟨rfl, h.1, h.2.2.2.2.1⟩

/-- Witness for C3: on a closed client, `write` returns `ErrClosed`
with `wg` raised by one, while `Call` and `sendCommand` leave `wg` net
unchanged. -/
theorem c3_witness :
    (clientWrite closedClient 0 none).1 = some Err.closed ∧
    (clientWrite closedClient 0 none).2.wg = closedClient.wg + 1 ∧
    (clientCallStep closedClient 0 none none none).2.1.wg = closedClient.wg ∧
    (sendCommandStep closedClient 0 [] none []).2.1.wg = closedClient.wg := by
  have h := c3_wg_net_unchanged closedClient 0 0 none [] [] none none
  exact ⟨(h.1 rfl).1, (h.1 rfl).2.1, (h.2.1 (by decide)).2, (h.2.2 (by decide)).2⟩

/-- Witness for C4: the first `Close` of a fresh client succeeds with
the four shutdown actions; closing again, or closing an already
closed client, returns `ErrClosed`. -/
theorem c4_witness :
    (clientClose initClient).1 = none ∧
    (clientClose initClient).2.2 = [CloseAction.waitWG, CloseAction.closeDone,
                                    CloseAction.closeWriting, CloseAction.closeConn] ∧
    (clientClose closedClient).1 = some Err.closed ∧
    (clientClose (clientClose initClient).2.1).1 = some Err.closed := by
  have h := c4_close_exactly_once initClient
  have h2 := c4_close_exactly_once closedClient
  refine ⟨(h.1 rfl).1, (h.1 rfl).2.1, ?_, h.2.2.1⟩
  rw [h2.2.1 rfl]

/-- Witness for C5: a fresh open client advances its counter to 1 on
the first write, and invocation indices 1 and 2 obtain the strictly
increasing sequence numbers 1 and 2. -/
theorem c5_witness :
    (clientWrite initClient 0 none).2.csn = (initClient.csn + 1) % u64 ∧
    csnIter 1 < csnIter 2 := by
  have h := c5_sequence_numbers initClient 0 0 none [] 1 2 rfl (by norm_num)
    (by norm_num [u64])
  exact ⟨h.1, h.2.2.2⟩

/-- Witness for C6: a RES frame for pending sequence 5 delivers body
to the registered waiter; a REQ frame is skipped as a bad frame; a RES
frame with no registered waiter is skipped without signalling. -/
theorem c6_witness :
    readLoopStep
        [(5, { seq := 5, buf := [], reap := false, err := none, woken := false })]
        5 FType.fRES [9] =
      (ReadStepResult.delivered 5, [],
        some { seq := 5, buf := [9], reap := false, err := none, woken := true }) ∧
    readLoopStep [] 4 FType.fREQ [9] = (ReadStepResult.skippedBadFrame, [], none) ∧
    (readLoopStep [] 4 FType.fRES [9]).1 = ReadStepResult.skippedNoWaiter := by
  have h1 := c6_reader_routing
    [(5, { seq := 5, buf := [], reap := false, err := none, woken := false })]
    5 [9] FType.fREQ
    { seq := 5, buf := [], reap := false, err := none, woken := false }
  have h2 := c6_reader_routing [] 4 [9] FType.fREQ
    { seq := 0, buf := [], reap := false, err := none, woken := false }
  exact ⟨h1.2.2.2 rfl, h2.2.1 (Or.inl rfl), (h2.2.2.1 rfl).1⟩

/-- Witness for C7: the empty address list yields `ErrNoClients`; one
success among two addresses yields success; two failures yield the
first failure. -/
theorem c7_witness :
    dialCluster [] = some Err.noClients ∧
    dialCluster [some (Err.dialErr 0), none] = none ∧
    dialCluster [some (Err.dialErr 0), some (Err.dialErr 1)] =
      some (Err.dialErr 0) := by
  have h1 := c7_dialCluster_semantics [some (Err.dialErr 0), none]
  have h2 := c7_dialCluster_semantics [some (Err.dialErr 0), some (Err.dialErr 1)]
  refine ⟨h1.1, h1.2.1 (by simp), ?_⟩
  have h3 := h2.2.2 (by decide) (by simp)
  simpa using h3

/-- Witness for C8 (amended): with remotes a and b and a single client
at a, the snapshot reports one connected and one disconnected entry,
summing to the two stored remotes. -/
theorem c8_witness :
    (clusterStatus { remotes := ["a", "b"], clients := ["a"] }).1.length +
      (clusterStatus { remotes := ["a", "b"], clients := ["a"] }).2.length =
      ({ remotes := ["a", "b"], clients := ["a"] } : ClusterState).remotes.length :=
  (c8_status_cardinality_amended { remotes := ["a", "b"], clients := ["a"] }
    (by decide) (by decide) (by decide)).2.2

/-- Witness for C10: a successful call pushes its waiter; a command
failing its `writeCommand` on a closed client does not push; a command
woken with a timeout does not push. -/
theorem c10_witness :
    (clientCallStep initClient 0 none none none).2.2 = true ∧
    (sendCommandStep closedClient 0 [] none []).2.2 = false ∧
    (sendCommandStep initClient 0 [] (some Err.timeout) []).2.2 = false := by
  have h1 := c10_waiter_push_discipline initClient 0 0 none [] [] none none
  have h2 := c10_waiter_push_discipline closedClient 0 0 none [] [] none none
  have h3 := c10_waiter_push_discipline initClient 0 0 none [] []
    (some Err.timeout) none
  exact ⟨h1.1, h2.2.1 (by decide), h3.2.2 (by decide) rfl⟩

end Synapse
